import Mathlib

/-!
Verification of the Stone-image repository.

The repository is a browser UI around one service function,
`editImageWithPrompt`, of which the source contains three near-identical
variants (they differ in how the API key is resolved and in whether the
request declares a response modality), plus the React component `App`
whose `addPromptToken` and `handleSubmit` drive the service call.

This file gives a shallow embedding of those functions.  The remote SDK
call `ai.models.generateContent` is modelled by an explicit `transport`
parameter mapping the built request to an outcome; each embedded variant
returns, next to its result, the list of requests it actually sent, so
that statements about network-call counts and request shapes can be made.
JavaScript strings are modelled by `String`, possibly-undefined values by
`Option`, and JS built-ins (`trim`, `toLowerCase`, `includes`, falsiness
of strings) are spelled out as executable Lean functions on `List Char`.
-/

namespace StoneImage

/-! ## Response data model (the shape read back from the SDK) -/

/-- An inline-data fragment of a response part: base64 payload plus MIME type. -/
structure InlineData where
  data : String
  mimeType : String
  deriving DecidableEq, Repr

/-- One content part of a response candidate; `inlineData` and `text` are both
optional, as in the SDK response type. -/
structure ResponsePart where
  inlineData : Option InlineData
  text : Option String
  deriving DecidableEq, Repr

/-- The `content` object of a candidate; its `parts` field may be absent. -/
structure ResponseContent where
  parts : Option (List ResponsePart)
  deriving DecidableEq, Repr

/-- One response candidate; its `content` may be absent. -/
structure ResponseCandidate where
  content : Option ResponseContent
  deriving DecidableEq, Repr

/-- The response of `generateContent`; `candidates` may be absent. -/
structure GenerateResponse where
  candidates : Option (List ResponseCandidate)
  deriving DecidableEq, Repr

/-- The scan loop of every variant:
`for (const part of parts) if (part.inlineData) return part.inlineData.data;`
followed by `return null`. -/
def scanParts : List ResponsePart → Option String
  | [] => none
  | part :: rest =>
    match part.inlineData with
    | some d => some d.data
    | none => scanParts rest

/-- The part list the loop ranges over:
`response.candidates?.[0]?.content?.parts || []`. -/
def responseParts (resp : GenerateResponse) : List ResponsePart :=
  ((((resp.candidates).bind List.head?).bind
      ResponseCandidate.content).bind ResponseContent.parts).getD []

/-- The value computed by the loop over `responseParts`. -/
def firstInlineData (resp : GenerateResponse) : Option String :=
  scanParts (responseParts resp)

/-! ## Request data model (the payload handed to `generateContent`) -/

/-- A request content part: either the inline image or the prompt text. -/
inductive ReqPart where
  | inlinePart (data : String) (mimeType : String)
  | textPart (text : String)
  deriving DecidableEq, Repr

/-- The `Modality` enum; only `IMAGE` is used by the source. -/
inductive Modality where
  | IMAGE
  deriving DecidableEq, Repr

/-- The argument of `generateContent`: model id, content parts (in order) and
the optional `config.responseModalities` field. -/
structure GenRequest where
  model : String
  parts : List ReqPart
  responseModalities : Option (List Modality)
  deriving DecidableEq, Repr

/-- A record of one network call: the API key handed to the `GoogleGenAI`
client (possibly undefined, hence `Option`) and the request sent. -/
structure SentRequest where
  apiKey : Option String
  req : GenRequest
  deriving DecidableEq, Repr

/-- The behaviour of the single awaited `generateContent` round trip:
it resolves with a response, rejects with a JS `Error` carrying a message,
or rejects with a non-`Error` value. -/
inductive CallOutcome where
  | success (resp : GenerateResponse)
  | errorFailure (msg : String)
  | nonErrorFailure

/-- Outcome of `editImageWithPrompt` as seen by its caller: the promise
resolves with `string | null`, or rejects with an `Error` whose message is
recorded. -/
inductive EditResult where
  | ok (result : Option String)
  | thrown (msg : String)
  deriving DecidableEq, Repr

/-! ## The three `editImageWithPrompt` variants -/

/-- Message of variant 1 when `!apiKey`. -/
def missingKeyMsgV1 : String :=
  "Clé API manquante. Veuillez configurer votre clé dans App.tsx ou via l\x27interface."

/-- Message of variant 3 when `!apiKey`. -/
def missingKeyMsgV3 : String :=
  "Clé API manquante. Veuillez ouvrir \x27services/geminiService.ts\x27 et coller votre clé dans la variable LOCAL_API_KEY tout en haut du fichier."

/-- Message thrown when the caught value is not an `Error` (identical text in
all three variants). -/
def unknownErrMsg : String :=
  "An unknown error occurred while communicating with the API."

/-- The `imagePart` constant built by every variant. -/
def imagePart (base64ImageData mimeType : String) : ReqPart :=
  ReqPart.inlinePart base64ImageData mimeType

/-- The `textPart` constant built by every variant. -/
def promptTextPart (prompt : String) : ReqPart :=
  ReqPart.textPart prompt

/-- The request of variants 1 and 3: fixed model id, image part then text
part, no `config`. -/
def requestPlain (base64ImageData mimeType prompt : String) : GenRequest :=
  ⟨"gemini-2.5-flash-image",
    [imagePart base64ImageData mimeType, promptTextPart prompt], none⟩

/-- The request of variant 2: same, plus
`config: { responseModalities: [Modality.IMAGE] }`. -/
def requestModality (base64ImageData mimeType prompt : String) : GenRequest :=
  ⟨"gemini-2.5-flash-image",
    [imagePart base64ImageData mimeType, promptTextPart prompt],
    some [Modality.IMAGE]⟩

/-- The shared `try { ... } catch` body around the awaited call: the scan loop
on success; rewrapping as `API Error: <msg>` when an `Error` was thrown;
the fixed unknown-error message otherwise.  (The `console.error` diagnostic
trace has no modelled effect.)  This block is textually identical in the
three variants. -/
def runCall : CallOutcome → EditResult
  | CallOutcome.success resp => EditResult.ok (firstInlineData resp)
  | CallOutcome.errorFailure msg => EditResult.thrown ("API Error: " ++ msg)
  | CallOutcome.nonErrorFailure => EditResult.thrown unknownErrMsg

/-- Variant 1 (part_000 lines 3 to 49): explicit `apiKey` parameter, checked
with `if (!apiKey) throw ...` before the client is built; no modality config.
The second component lists the network calls performed. -/
def editImageWithPromptV1 (base64ImageData mimeType prompt apiKey : String)
    (transport : GenRequest → CallOutcome) : EditResult × List SentRequest :=
  if apiKey.isEmpty then
    (EditResult.thrown missingKeyMsgV1, [])
  else
    (runCall (transport (requestPlain base64ImageData mimeType prompt)),
      [⟨some apiKey, requestPlain base64ImageData mimeType prompt⟩])

/-- Variant 2 (part_000 lines 51 to 98): no key parameter and no key check at
all; `process.env.API_KEY` (possibly undefined, modelled as `Option String`)
is handed straight to the client, and the call is made unconditionally.  This
is the variant that declares `responseModalities: [Modality.IMAGE]`. -/
def editImageWithPromptV2 (base64ImageData mimeType prompt : String)
    (envApiKey : Option String) (transport : GenRequest → CallOutcome) :
    EditResult × List SentRequest :=
  (runCall (transport (requestModality base64ImageData mimeType prompt)),
    [⟨envApiKey, requestModality base64ImageData mimeType prompt⟩])

/-- JS `a || b` for a string `a` and a possibly-undefined `b`, as in
`LOCAL_API_KEY || process.env.API_KEY`. -/
def jsOrString (a : String) (b : Option String) : Option String :=
  if a.isEmpty then b else some a

/-- JS falsiness of a `string | undefined` value (`!apiKey`). -/
def optFalsy : Option String → Bool
  | none => true
  | some s => s.isEmpty

/-- Variant 3 (part_000 lines 100 to 164): the key is
`LOCAL_API_KEY || process.env.API_KEY`, then checked with `if (!apiKey)`.
The source line defining `LOCAL_API_KEY` is a malformed literal
(`""AIzaSy...;` does not parse), so the local constant is taken as a
parameter here; no modality config. -/
def editImageWithPromptV3 (base64ImageData mimeType prompt : String)
    (localApiKey : String) (envApiKey : Option String)
    (transport : GenRequest → CallOutcome) : EditResult × List SentRequest :=
  if optFalsy (jsOrString localApiKey envApiKey) then
    (EditResult.thrown missingKeyMsgV3, [])
  else
    (runCall (transport (requestPlain base64ImageData mimeType prompt)),
      [⟨jsOrString localApiKey envApiKey,
        requestPlain base64ImageData mimeType prompt⟩])

/-- Modelled from the spec: the credential-resolution chain the design
document describes for C4 — an explicit caller value, then the local
configuration constant, then the environment value, in that precedence
order, with failure only when all three are absent.  This definition follows
the spec wording and is compared against the code variants above. -/
def resolveCredentialSpec (explicitKey : Option String) (localKey : String)
    (envKey : Option String) : Option String :=
  if optFalsy explicitKey = false then explicitKey
  else if localKey.isEmpty = false then some localKey
  else if optFalsy envKey = false then envKey
  else none

/-! ## JavaScript string built-ins used by `App.tsx`

`trim`, `toLowerCase` and `includes` are spelled out as executable
functions on `List Char`. -/

/-- The whitespace test used by the model of JS `trim`. -/
def isWS (c : Char) : Bool := c.isWhitespace

/-- JS `String.prototype.trim`: drop whitespace from both ends (here: from
the right end via `reverse`, then from the left end). -/
def trimChars (l : List Char) : List Char :=
  ((l.reverse.dropWhile isWS).reverse).dropWhile isWS

/-- JS `String.prototype.includes`: `charsContain sub l` holds when `sub`
occurs contiguously inside `l` (prefix at some position). -/
def charsContain : List Char → List Char → Bool
  | sub, [] => sub.isEmpty
  | sub, c :: t => List.isPrefixOf sub (c :: t) || charsContain sub t

/-- JS `trim` on `String`. -/
def jsTrim (s : String) : String := String.mk (trimChars s.data)

/-- JS `toLowerCase` on `String`. -/
def jsToLowerCase (s : String) : String := String.mk (s.data.map Char.toLower)

/-- JS `s.includes(sub)` on `String`. -/
def jsIncludes (s sub : String) : Bool := charsContain sub.data s.data

/-! ## The `App` component (src/App.tsx) -/

/-- Character-level body of `addPromptToken` (App.tsx lines 74 to 81):
`const trimmed = prev.trim(); if (trimmed.length === 0) return token;
if (trimmed.toLowerCase().includes(token.toLowerCase())) return prev;
return trimmed + ", " + token;` (template literal spelled out). -/
def addTokenChars (token prev : List Char) : List Char :=
  if (trimChars prev).length = 0 then token
  else if charsContain (token.map Char.toLower) ((trimChars prev).map Char.toLower) then prev
  else trimChars prev ++ ',' :: ' ' :: token

/-- `addPromptToken` as the prompt-state update it performs: given the token
and the previous prompt, the new prompt. -/
def addPromptToken (token prev : String) : String :=
  String.mk (addTokenChars token.data prev.data)

/-- The `ImageFile` interface of App.tsx. -/
structure ImageFile where
  base64 : String
  mimeType : String
  name : String
  deriving DecidableEq, Repr

/-- The component state touched by `handleSubmit`: the five `useState` cells
it reads or writes. -/
structure AppState where
  originalImage : Option ImageFile
  editedImage : Option String
  prompt : String
  isLoading : Bool
  error : Option String
  deriving DecidableEq, Repr

/-- Behaviour of the awaited `editImageWithPrompt(...)` call as seen inside
`handleSubmit`: it resolves with `string | null`, rejects with a JS `Error`,
or rejects with a non-`Error` value. -/
inductive EditCallOutcome where
  | resolved (result : Option String)
  | thrownError (msg : String)
  | thrownNonError
  deriving DecidableEq, Repr

/-- Message of the `Error` thrown by `handleSubmit` when the service resolves
without a truthy image string. -/
def noImageMsg : String := "The model did not return an image. Try a different prompt."

/-- Message substituted by the catch block when the caught value is not an
`Error`. -/
def unknownAppErrMsg : String := "An unknown error occurred."

/-- State after `setIsLoading(true); setError(null); setEditedImage(null)` at
the top of the submit path. -/
def submitStart (s : AppState) : AppState :=
  { s with isLoading := true, error := none, editedImage := none }

/-- The `try { ... } catch (err) { ... }` of `handleSubmit`: on a truthy
result string the edited image is set to a PNG data URL wrapping it; on a
null (or empty, hence falsy) result an `Error` with `noImageMsg` is thrown
and caught; any caught `Error` sets `error` to its message with the
`Generation failed: ` prefix, a non-`Error` to the generic message. -/
def submitTry (s : AppState) : EditCallOutcome → AppState
  | EditCallOutcome.resolved (some generatedImage) =>
    if generatedImage.isEmpty then
      { submitStart s with error := some ("Generation failed: " ++ noImageMsg) }
    else
      { submitStart s with
          editedImage := some ("data:image/png;base64," ++ generatedImage) }
  | EditCallOutcome.resolved none =>
    { submitStart s with error := some ("Generation failed: " ++ noImageMsg) }
  | EditCallOutcome.thrownError msg =>
    { submitStart s with error := some ("Generation failed: " ++ msg) }
  | EditCallOutcome.thrownNonError =>
    { submitStart s with error := some ("Generation failed: " ++ unknownAppErrMsg) }

/-- `handleSubmit` (App.tsx lines 83 to 109).  The guard
`if (!originalImage || !prompt || isLoading) return;` leaves the state
untouched; otherwise the submit path runs, ending with the `finally`
clause `setIsLoading(false)`.  The boolean reports whether
`editImageWithPrompt` was invoked during this run. -/
def handleSubmit (s : AppState) (callOutcome : EditCallOutcome) : AppState × Bool :=
  if s.originalImage.isNone || s.prompt.isEmpty || s.isLoading then
    (s, false)
  else
    ({ submitTry s callOutcome with isLoading := false }, true)

/-! ## Helper lemmas -/

lemma isPrefixOf_self : ∀ (l : List Char), List.isPrefixOf l l = true
  | [] => rfl
  | c :: t => by simp [List.isPrefixOf, isPrefixOf_self t]

lemma charsContain_nil : ∀ (l : List Char), charsContain [] l = true
  | [] => rfl
  | c :: t => by simp [charsContain, List.isPrefixOf]

lemma charsContain_append_self :
    ∀ (pre sub : List Char), charsContain sub (pre ++ sub) = true
  | [], sub => by
      cases sub with
      | nil => rfl
      | cons c t => simp [charsContain, isPrefixOf_self]
  | c :: pre, sub => by
      simp [charsContain, charsContain_append_self pre sub]

lemma dropWhile_headq (p : Char → Bool) :
    ∀ (l : List Char) (c : Char) (t : List Char),
      l.dropWhile p = c :: t → p c = false := by
  intro l
  induction l with
  | nil => intro c t h; simp [List.dropWhile] at h
  | cons a l ih =>
    intro c t h
    by_cases ha : p a
    · rw [List.dropWhile_cons_of_pos ha] at h
      exact ih c t h
    · rw [List.dropWhile_cons_of_neg ha] at h
      obtain ⟨rfl, -⟩ := List.cons.injEq .. ▸ h
      · simpa using ha

lemma dropWhile_cons_self {p : Char → Bool} {c : Char} (h : p c = false)
    (t : List Char) : (c :: t).dropWhile p = c :: t :=
  List.dropWhile_cons_of_neg (by simp [h])

lemma trim_head_false (l : List Char) (c : Char) (t : List Char)
    (h : trimChars l = c :: t) : isWS c = false :=
  dropWhile_headq isWS _ c t h

lemma trim_fixed_rev (tok : List Char) (h : trimChars tok = tok) :
    tok.reverse.dropWhile isWS = tok.reverse := by
  have hsuf : tok.reverse.dropWhile isWS <:+ tok.reverse := List.dropWhile_suffix _
  obtain ⟨pre, hpre⟩ := hsuf
  have hsuf2 : trimChars tok <:+ (tok.reverse.dropWhile isWS).reverse := by
    unfold trimChars
    exact List.dropWhile_suffix _
  obtain ⟨pre2, hpre2⟩ := hsuf2
  rw [h] at hpre2
  have hlen1 : (tok.reverse.dropWhile isWS).length + pre.length = tok.length := by
    have := congrArg List.length hpre
    simpa [Nat.add_comm] using this
  have hlen2 : tok.length + pre2.length = (tok.reverse.dropWhile isWS).length := by
    have := congrArg List.length hpre2
    simpa [Nat.add_comm] using this
  have hpz : pre.length = 0 := by omega
  have : pre = [] := List.length_eq_zero.mp hpz
  rw [this] at hpre
  simpa using hpre

lemma trimChars_nil : trimChars [] = [] := rfl

lemma trimChars_eq_self {c d : Char} {M R : List Char} (X : List Char)
    (hX : X = c :: M) (hXrev : X.reverse = d :: R)
    (hc : isWS c = false) (hd : isWS d = false) : trimChars X = X := by
  unfold trimChars
  rw [hXrev, dropWhile_cons_self hd, ← hXrev, List.reverse_reverse, hX,
    dropWhile_cons_self hc]

lemma addTokenChars_idem (token prev : List Char) (h : trimChars token = token) :
    addTokenChars token (addTokenChars token prev) = addTokenChars token prev := by
  by_cases h1 : (trimChars prev).length = 0
  · have e1 : addTokenChars token prev = token := by
      unfold addTokenChars
      rw [if_pos h1]
    rw [e1]
    cases htok : token with
    | nil =>
      unfold addTokenChars
      rw [trimChars_nil]
      simp
    | cons c t =>
      unfold addTokenChars
      rw [← htok, h, htok]
      have hlen : ¬ ((c :: t).length = 0) := by simp
      rw [if_neg hlen]
      have hcc : charsContain ((c :: t).map Char.toLower)
          ((c :: t).map Char.toLower) = true := by
        simpa using charsContain_append_self [] ((c :: t).map Char.toLower)
      rw [if_pos hcc]
  · by_cases h2 : charsContain (token.map Char.toLower)
        ((trimChars prev).map Char.toLower) = true
    · have e1 : addTokenChars token prev = prev := by
        unfold addTokenChars
        rw [if_neg h1, if_pos h2]
      rw [e1]
      exact e1
    · have e1 : addTokenChars token prev = trimChars prev ++ ',' :: ' ' :: token := by
        unfold addTokenChars
        rw [if_neg h1, if_neg h2]
      have htokne : token ≠ [] := by
        intro hnil
        apply h2
        rw [hnil]
        exact charsContain_nil _
      obtain ⟨c, T0, hT0⟩ : ∃ c T0, trimChars prev = c :: T0 := by
        cases hE : trimChars prev with
        | nil => exact absurd (by rw [hE]; rfl) h1
        | cons c T0 => exact ⟨c, T0, rfl⟩
      have hcWS : isWS c = false := trim_head_false prev c T0 hT0
      obtain ⟨d, R0, hR0⟩ : ∃ d R0, token.reverse = d :: R0 := by
        cases hE : token.reverse with
        | nil => exact absurd (by simpa using congrArg List.reverse hE) htokne
        | cons d R0 => exact ⟨d, R0, rfl⟩
      have hdWS : isWS d = false := by
        apply dropWhile_headq isWS token.reverse d R0
        rw [trim_fixed_rev token h, hR0]
      have hXrev : (trimChars prev ++ ',' :: ' ' :: token).reverse
          = d :: (R0 ++ ' ' :: ',' :: (trimChars prev).reverse) := by
        simp [List.reverse_append, hR0]
      have hXcons : trimChars prev ++ ',' :: ' ' :: token
          = c :: (T0 ++ ',' :: ' ' :: token) := by
        rw [hT0]
        rfl
      have htrim2 : trimChars (trimChars prev ++ ',' :: ' ' :: token)
          = trimChars prev ++ ',' :: ' ' :: token :=
        trimChars_eq_self _ hXcons hXrev hcWS hdWS
      rw [e1]
      unfold addTokenChars
      rw [htrim2]
      have hne : ¬ ((trimChars prev ++ ',' :: ' ' :: token).length = 0) := by simp
      rw [if_neg hne]
      have hsplit : trimChars prev ++ ',' :: ' ' :: token
          = (trimChars prev ++ [',', ' ']) ++ token := by
        simp
      have hcc : charsContain (token.map Char.toLower)
          ((trimChars prev ++ ',' :: ' ' :: token).map Char.toLower) = true := by
        rw [hsplit, List.map_append]
        exact charsContain_append_self _ _
      rw [if_pos hcc]

lemma scanParts_first_inline (pre : List ResponsePart) (part : ResponsePart)
    (post : List ResponsePart) (d : InlineData)
    (hpre : ∀ q ∈ pre, q.inlineData = none) (hp : part.inlineData = some d) :
    scanParts (pre ++ part :: post) = some d.data := by
  induction pre with
  | nil => simp [scanParts, hp]
  | cons q rest ih =>
    have hq : q.inlineData = none := hpre q (by simp)
    have hrest := ih (fun x hx => hpre x (by simp [hx]))
    simpa [scanParts, hq] using hrest

lemma scanParts_no_inline (l : List ResponsePart)
    (h : ∀ q ∈ l, q.inlineData = none) : scanParts l = none := by
  induction l with
  | nil => rfl
  | cons q rest ih =>
    have hq : q.inlineData = none := h q (by simp)
    have hrest := ih (fun x hx => h x (by simp [hx]))
    simpa [scanParts, hq] using hrest

/-! ## Claim theorems -/

/-- Claim C1, counterexample to the statement as given: in the
environment-key variant of `editImageWithPrompt` an invocation whose
resolved credential is absent (`process.env.API_KEY` undefined) does not
throw a missing-credential error before network I/O — it performs one call
to `generateContent` and resolves normally. -/
theorem C1_counterexample :
    (editImageWithPromptV2 "aW1n" "image/png" "make it blue" none
        (fun _ => CallOutcome.success ⟨some []⟩)).2.length = 1 ∧
    (editImageWithPromptV2 "aW1n" "image/png" "make it blue" none
        (fun _ => CallOutcome.success ⟨some []⟩)).1 = EditResult.ok none :=
  ⟨rfl, rfl⟩

/-- Claim C1 as amended: in the two variants that resolve and check the
credential themselves (the explicit-parameter variant and the
local-constant/environment variant), an empty or absent resolved credential
makes the call throw the missing-credential error and perform zero network
calls; the environment-injected variant instead performs its single network
call regardless of the credential. -/
theorem C1_theorem :
    (∀ b m p tr, editImageWithPromptV1 b m p "" tr
        = (EditResult.thrown missingKeyMsgV1, [])) ∧
    (∀ b m p l env tr, optFalsy (jsOrString l env) = true →
        editImageWithPromptV3 b m p l env tr
          = (EditResult.thrown missingKeyMsgV3, [])) ∧
    (∀ b m p env tr, (editImageWithPromptV2 b m p env tr).2.length = 1) := by
  refine ⟨fun b m p tr => rfl, fun b m p l env tr h => ?_, fun b m p env tr => rfl⟩
  unfold editImageWithPromptV3
  rw [if_pos h]

/-- Witness for C1: the local/environment variant at a concrete input with
both sources absent. -/
theorem C1_witness :
    editImageWithPromptV3 "aW1n" "image/png" "make it blue" "" none
        (fun _ => CallOutcome.nonErrorFailure)
      = (EditResult.thrown missingKeyMsgV3, []) :=
  C1_theorem.2.1 "aW1n" "image/png" "make it blue" "" none
    (fun _ => CallOutcome.nonErrorFailure) rfl

/-- Claim C4, counterexample to the statement as given: the spec-side
resolution chain (explicit value, then local constant, then environment)
resolves a credential from the environment when the explicit value is
absent, so per the claim the call must not fail; but the explicit-parameter
variant invoked with an empty explicit value throws the missing-credential
error with zero network calls, never consulting the other two sources. -/
theorem C4_counterexample :
    resolveCredentialSpec none "" (some "k") = some "k" ∧
    editImageWithPromptV1 "aW1n" "image/png" "p" ""
        (fun _ => CallOutcome.nonErrorFailure)
      = (EditResult.thrown missingKeyMsgV1, []) :=
  ⟨rfl, rfl⟩

/-- Claim C4 as amended: no single variant implements the three-source
chain.  The explicit-parameter variant consults only the caller value and
fails exactly when it is empty; the local-constant variant resolves the
local constant first, falls back to the environment only when the constant
is empty, and fails exactly when both are absent or empty.  Within each
variant the order of the sources consulted agrees with the claimed
precedence (explicit before local before environment). -/
theorem C4_theorem :
    (∀ b m p k tr, (editImageWithPromptV1 b m p k tr).2
        = if k.isEmpty then [] else [⟨some k, requestPlain b m p⟩]) ∧
    (∀ b m p k tr, k.isEmpty = true →
        (editImageWithPromptV1 b m p k tr).1 = EditResult.thrown missingKeyMsgV1) ∧
    (∀ l env, l.isEmpty = false → jsOrString l env = some l) ∧
    (∀ l env, l.isEmpty = true → jsOrString l env = env) ∧
    (∀ b m p l env tr, (editImageWithPromptV3 b m p l env tr).2
        = if optFalsy (jsOrString l env) then []
          else [⟨jsOrString l env, requestPlain b m p⟩]) ∧
    (∀ b m p l env tr, optFalsy (jsOrString l env) = true →
        (editImageWithPromptV3 b m p l env tr).1 = EditResult.thrown missingKeyMsgV3) := by
  refine ⟨fun b m p k tr => ?_, fun b m p k tr hk => ?_, fun l env hl => ?_,
    fun l env hl => ?_, fun b m p l env tr => ?_, fun b m p l env tr h => ?_⟩
  · unfold editImageWithPromptV1
    by_cases hk : k.isEmpty = true
    · rw [if_pos hk, if_pos hk]
    · rw [if_neg hk, if_neg hk]
  · unfold editImageWithPromptV1
    rw [if_pos hk]
  · unfold jsOrString
    rw [if_neg (by simp [hl])]
  · unfold jsOrString
    rw [if_pos hl]
  · unfold editImageWithPromptV3
    by_cases h : optFalsy (jsOrString l env) = true
    · rw [if_pos h, if_pos h]
    · rw [if_neg h, if_neg h]
  · unfold editImageWithPromptV3
    rw [if_pos h]

/-- Witness for C4: concrete instances of the guarded conjuncts — an empty
explicit key throws in the first variant, a non-empty local constant wins
over a set environment value, and an empty constant falls back to it. -/
theorem C4_witness :
    (editImageWithPromptV1 "aW1n" "image/png" "p" ""
        (fun _ => CallOutcome.nonErrorFailure)).1
      = EditResult.thrown missingKeyMsgV1 ∧
    jsOrString "local-key" (some "env-key") = some "local-key" ∧
    jsOrString "" (some "env-key") = some "env-key" :=
  ⟨ C4_theorem.2.1 "aW1n" "image/png" "p" "" (fun _ => CallOutcome.nonErrorFailure) rfl,
    C4_theorem.2.2.1 "local-key" (some "env-key") rfl,
    C4_theorem.2.2.2.1 "" (some "env-key") rfl⟩

/-- Claim C7 (confirmed): every invocation of each of the three variants
performs at most one network call to `generateContent`, whatever the
credential, the request and the transport outcome. -/
theorem C7_theorem :
    (∀ b m p k tr, (editImageWithPromptV1 b m p k tr).2.length ≤ 1) ∧
    (∀ b m p env tr, (editImageWithPromptV2 b m p env tr).2.length ≤ 1) ∧
    (∀ b m p l env tr, (editImageWithPromptV3 b m p l env tr).2.length ≤ 1) := by
  refine ⟨fun b m p k tr => ?_, fun b m p env tr => Nat.le_refl 1,
    fun b m p l env tr => ?_⟩
  · unfold editImageWithPromptV1
    by_cases hk : k.isEmpty = true
    · rw [if_pos hk]
      exact Nat.zero_le 1
    · rw [if_neg hk]
      exact Nat.le_refl 1
  · unfold editImageWithPromptV3
    by_cases h : optFalsy (jsOrString l env) = true
    · rw [if_pos h]
      exact Nat.zero_le 1
    · rw [if_neg h]
      exact Nat.le_refl 1

/-- Claim C8 (confirmed): every request any variant sends addresses the fixed
model id `gemini-2.5-flash-image` and carries exactly two content parts in
order — the inline image with its MIME type, then the instruction text.  The
environment-key variant additionally declares the response modality `IMAGE`;
the other two leave the modality configuration absent. -/
theorem C8_theorem :
    (∀ b m p, requestPlain b m p
        = ⟨"gemini-2.5-flash-image",
            [ReqPart.inlinePart b m, ReqPart.textPart p], none⟩) ∧
    (∀ b m p, requestModality b m p
        = ⟨"gemini-2.5-flash-image",
            [ReqPart.inlinePart b m, ReqPart.textPart p], some [Modality.IMAGE]⟩) ∧
    (∀ b m p k tr, (editImageWithPromptV1 b m p k tr).2
        = if k.isEmpty then [] else [⟨some k, requestPlain b m p⟩]) ∧
    (∀ b m p env tr, (editImageWithPromptV2 b m p env tr).2
        = [⟨env, requestModality b m p⟩]) ∧
    (∀ b m p l env tr, (editImageWithPromptV3 b m p l env tr).2
        = if optFalsy (jsOrString l env) then []
          else [⟨jsOrString l env, requestPlain b m p⟩]) := by
  refine ⟨fun b m p => rfl, fun b m p => rfl, fun b m p k tr => ?_,
    fun b m p env tr => rfl, fun b m p l env tr => ?_⟩
  · unfold editImageWithPromptV1
    by_cases hk : k.isEmpty = true
    · rw [if_pos hk, if_pos hk]
    · rw [if_neg hk, if_neg hk]
  · unfold editImageWithPromptV3
    by_cases h : optFalsy (jsOrString l env) = true
    · rw [if_pos h, if_pos h]
    · rw [if_neg h, if_neg h]

/-- Claim C2 (confirmed): when the first candidate's content parts consist of
a prefix with no inline data, then a part carrying inline data `d`, then
arbitrary further parts — and the response may hold arbitrary further
candidates — every variant returns exactly `d.data`, byte for byte, ignoring
everything after the first inline-data part. -/
theorem C2_theorem : ∀ (resp : GenerateResponse) (pre : List ResponsePart)
    (part : ResponsePart) (post : List ResponsePart) (d : InlineData),
    responseParts resp = pre ++ part :: post →
    (∀ q ∈ pre, q.inlineData = none) →
    part.inlineData = some d →
    firstInlineData resp = some d.data ∧
    (∀ b m p env tr, tr (requestModality b m p) = CallOutcome.success resp →
        (editImageWithPromptV2 b m p env tr).1 = EditResult.ok (some d.data)) ∧
    (∀ b m p k tr, k.isEmpty = false →
        tr (requestPlain b m p) = CallOutcome.success resp →
        (editImageWithPromptV1 b m p k tr).1 = EditResult.ok (some d.data)) ∧
    (∀ b m p l env tr, optFalsy (jsOrString l env) = false →
        tr (requestPlain b m p) = CallOutcome.success resp →
        (editImageWithPromptV3 b m p l env tr).1 = EditResult.ok (some d.data)) := by
  intro resp pre part post d hparts hpre hp
  have hfirst : firstInlineData resp = some d.data := by
    unfold firstInlineData
    rw [hparts]
    exact scanParts_first_inline pre part post d hpre hp
  refine ⟨hfirst, fun b m p env tr htr => ?_, fun b m p k tr hk htr => ?_,
    fun b m p l env tr hl htr => ?_⟩
  · unfold editImageWithPromptV2
    rw [htr]
    exact congrArg EditResult.ok hfirst
  · unfold editImageWithPromptV1
    rw [if_neg (by simp [hk]), htr]
    exact congrArg EditResult.ok hfirst
  · unfold editImageWithPromptV3
    rw [if_neg (by simp [hl]), htr]
    exact congrArg EditResult.ok hfirst

/-- Witness for C2: a concrete response whose first candidate holds a
text-only part, then an inline-data part with payload `QUJD`, followed by a
second inline part and a second candidate, both ignored. -/
theorem C2_witness :
    firstInlineData
        ⟨some [⟨some ⟨some [⟨none, some "ok"⟩,
            ⟨some ⟨"QUJD", "image/png"⟩, none⟩,
            ⟨some ⟨"WFla", "image/png"⟩, none⟩]⟩⟩, ⟨none⟩]⟩
      = some "QUJD" :=
  ( C2_theorem ⟨some [⟨some ⟨some [⟨none, some "ok"⟩,
        ⟨some ⟨"QUJD", "image/png"⟩, none⟩,
        ⟨some ⟨"WFla", "image/png"⟩, none⟩]⟩⟩, ⟨none⟩]⟩
      [⟨none, some "ok"⟩] ⟨some ⟨"QUJD", "image/png"⟩, none⟩
      [⟨some ⟨"WFla", "image/png"⟩, none⟩] ⟨"QUJD", "image/png"⟩
      rfl (by decide) rfl).1

/-- Claim C3 (confirmed): for a response without transport error whose first
candidate's content parts carry no inline data anywhere (including the cases
of no candidates, no content or no parts, where the scanned list is empty),
every variant resolves to the null result — the distinguished no-image
outcome — and throws nothing. -/
theorem C3_theorem : ∀ (resp : GenerateResponse),
    (∀ q ∈ responseParts resp, q.inlineData = none) →
    firstInlineData resp = none ∧
    (∀ b m p env tr, tr (requestModality b m p) = CallOutcome.success resp →
        (editImageWithPromptV2 b m p env tr).1 = EditResult.ok none) ∧
    (∀ b m p k tr, k.isEmpty = false →
        tr (requestPlain b m p) = CallOutcome.success resp →
        (editImageWithPromptV1 b m p k tr).1 = EditResult.ok none) ∧
    (∀ b m p l env tr, optFalsy (jsOrString l env) = false →
        tr (requestPlain b m p) = CallOutcome.success resp →
        (editImageWithPromptV3 b m p l env tr).1 = EditResult.ok none) := by
  intro resp hnone
  have hfirst : firstInlineData resp = none := scanParts_no_inline _ hnone
  refine ⟨hfirst, fun b m p env tr htr => ?_, fun b m p k tr hk htr => ?_,
    fun b m p l env tr hl htr => ?_⟩
  · unfold editImageWithPromptV2
    rw [htr]
    exact congrArg EditResult.ok hfirst
  · unfold editImageWithPromptV1
    rw [if_neg (by simp [hk]), htr]
    exact congrArg EditResult.ok hfirst
  · unfold editImageWithPromptV3
    rw [if_neg (by simp [hl]), htr]
    exact congrArg EditResult.ok hfirst

/-- Witness for C3: a concrete response whose only candidate has a single
text-only part; the environment-key variant resolves to the null result. -/
theorem C3_witness :
    (editImageWithPromptV2 "aW1n" "image/png" "make it blue" (some "k")
        (fun _ => CallOutcome.success
          ⟨some [⟨some ⟨some [⟨none, some "text only"⟩]⟩⟩]⟩)).1
      = EditResult.ok none :=
  ( C3_theorem ⟨some [⟨some ⟨some [⟨none, some "text only"⟩]⟩⟩]⟩
      (by decide)).2.1 "aW1n" "image/png" "make it blue" (some "k") _ rfl

/-- Claim C5 (confirmed): whenever the awaited remote call rejects, each
variant rethrows a fresh `Error`: if the caught value was an `Error` with
message `msg`, the new message is the context prefix `API Error: ` followed
by `msg` verbatim; any non-`Error` value is replaced by the fixed generic
unknown-error message.  In both cases only these wrapped messages — never
the raw caught value — reach the caller. -/
theorem C5_theorem :
    (∀ b m p k tr msg, k.isEmpty = false →
        tr (requestPlain b m p) = CallOutcome.errorFailure msg →
        (editImageWithPromptV1 b m p k tr).1
          = EditResult.thrown ("API Error: " ++ msg)) ∧
    (∀ b m p k tr, k.isEmpty = false →
        tr (requestPlain b m p) = CallOutcome.nonErrorFailure →
        (editImageWithPromptV1 b m p k tr).1 = EditResult.thrown unknownErrMsg) ∧
    (∀ b m p env tr msg,
        tr (requestModality b m p) = CallOutcome.errorFailure msg →
        (editImageWithPromptV2 b m p env tr).1
          = EditResult.thrown ("API Error: " ++ msg)) ∧
    (∀ b m p env tr,
        tr (requestModality b m p) = CallOutcome.nonErrorFailure →
        (editImageWithPromptV2 b m p env tr).1 = EditResult.thrown unknownErrMsg) ∧
    (∀ b m p l env tr msg, optFalsy (jsOrString l env) = false →
        tr (requestPlain b m p) = CallOutcome.errorFailure msg →
        (editImageWithPromptV3 b m p l env tr).1
          = EditResult.thrown ("API Error: " ++ msg)) ∧
    (∀ b m p l env tr, optFalsy (jsOrString l env) = false →
        tr (requestPlain b m p) = CallOutcome.nonErrorFailure →
        (editImageWithPromptV3 b m p l env tr).1 = EditResult.thrown unknownErrMsg) := by
  refine ⟨fun b m p k tr msg hk htr => ?_, fun b m p k tr hk htr => ?_,
    fun b m p env tr msg htr => ?_, fun b m p env tr htr => ?_,
    fun b m p l env tr msg hl htr => ?_, fun b m p l env tr hl htr => ?_⟩
  · unfold editImageWithPromptV1
    rw [if_neg (by simp [hk]), htr]
    rfl
  · unfold editImageWithPromptV1
    rw [if_neg (by simp [hk]), htr]
    rfl
  · unfold editImageWithPromptV2
    rw [htr]
    rfl
  · unfold editImageWithPromptV2
    rw [htr]
    rfl
  · unfold editImageWithPromptV3
    rw [if_neg (by simp [hl]), htr]
    rfl
  · unfold editImageWithPromptV3
    rw [if_neg (by simp [hl]), htr]
    rfl

/-- Witness for C5: a concrete transport rejection with an `Error` message
`quota exceeded` is rethrown with the context prefix. -/
theorem C5_witness :
    (editImageWithPromptV1 "aW1n" "image/png" "make it blue" "key-1"
        (fun _ => CallOutcome.errorFailure "quota exceeded")).1
      = EditResult.thrown "API Error: quota exceeded" :=
  C5_theorem.1 "aW1n" "image/png" "make it blue" "key-1"
    (fun _ => CallOutcome.errorFailure "quota exceeded") "quota exceeded" rfl rfl

/-- Claim C6 (confirmed): `handleSubmit` returns immediately, leaving the
state untouched and never invoking `editImageWithPrompt`, whenever the
prompt is empty, no original image is loaded, or a request is already in
flight; conversely the service is invoked only with a non-empty prompt, a
loaded image and no request in flight. -/
theorem C6_theorem : ∀ (s : AppState) (o : EditCallOutcome),
    ((s.prompt = "" ∨ s.originalImage = none ∨ s.isLoading = true) →
      handleSubmit s o = (s, false)) ∧
    ((handleSubmit s o).2 = true →
      s.prompt ≠ "" ∧ s.originalImage ≠ none ∧ s.isLoading = false) := by
  intro s o
  constructor
  · intro h
    have hc : (s.originalImage.isNone || s.prompt.isEmpty || s.isLoading) = true := by
      rcases h with h | h | h
      · simp [h, String.isEmpty_iff]
      · simp [h]
      · simp [h]
    unfold handleSubmit
    rw [if_pos hc]
  · intro h
    by_cases hc : (s.originalImage.isNone || s.prompt.isEmpty || s.isLoading) = true
    · exfalso
      unfold handleSubmit at h
      rw [if_pos hc] at h
      exact Bool.false_ne_true h
    · have hl : s.isLoading = false := by
        cases hl : s.isLoading with
        | false => rfl
        | true => exact absurd (by simp [hl]) hc
      have hp : s.prompt ≠ "" := by
        intro he
        exact hc (by simp [he, String.isEmpty_iff])
      have ho : s.originalImage ≠ none := by
        intro he
        exact hc (by simp [he])
      exact ⟨hp, ho, hl⟩

/-- Witness for C6: with no image loaded and an empty prompt, a concrete
submit leaves the state unchanged and does not invoke the service. -/
theorem C6_witness :
    handleSubmit ⟨none, none, "", false, none⟩ (EditCallOutcome.resolved none)
      = (⟨none, none, "", false, none⟩, false) :=
  ( C6_theorem ⟨none, none, "", false, none⟩ (EditCallOutcome.resolved none)).1
    (Or.inl rfl)

/-- Claim C9, counterexample to the statement as given: idempotence fails for
a token carrying trailing whitespace.  Starting from the empty prompt, one
application of the token `a ` yields `a `, but a second application appends
again (the trimmed prompt `a` does not contain `a ` as a substring),
yielding `a, a `. -/
theorem C9_counterexample :
    ¬ (addPromptToken "a " (addPromptToken "a " "") = addPromptToken "a " "") := by
  decide

/-- Claim C9 as amended: `addPromptToken` is idempotent for every token that
equals its own trim (no leading or trailing whitespace — true of every
preset token the component passes); and the per-case behaviour holds for all
inputs exactly as claimed: an empty trimmed prompt yields the token itself, a
trimmed prompt already containing the token case-insensitively is returned
unchanged, and otherwise the token is appended to the trimmed prompt after a
comma and space. -/
theorem C9_theorem : ∀ (token prev : String),
    (jsTrim token = token →
      addPromptToken token (addPromptToken token prev) = addPromptToken token prev) ∧
    ((jsTrim prev).length = 0 → addPromptToken token prev = token) ∧
    ((jsTrim prev).length ≠ 0 →
      jsIncludes (jsToLowerCase (jsTrim prev)) (jsToLowerCase token) = true →
      addPromptToken token prev = prev) ∧
    ((jsTrim prev).length ≠ 0 →
      jsIncludes (jsToLowerCase (jsTrim prev)) (jsToLowerCase token) = false →
      addPromptToken token prev = jsTrim prev ++ ", " ++ token) := by
  intro token prev
  refine ⟨fun h => ?_, fun h => ?_, fun h1 h2 => ?_, fun h1 h2 => ?_⟩
  · show String.mk (addTokenChars token.data (addTokenChars token.data prev.data))
        = String.mk (addTokenChars token.data prev.data)
    exact congrArg String.mk
      (addTokenChars_idem token.data prev.data (congrArg String.data h))
  · have hlen : (trimChars prev.data).length = 0 := h
    have e : addTokenChars token.data prev.data = token.data := by
      unfold addTokenChars
      rw [if_pos hlen]
    show String.mk (addTokenChars token.data prev.data) = token
    rw [e]
  · have h1l : ¬ ((trimChars prev.data).length = 0) := h1
    have h2l : charsContain (token.data.map Char.toLower)
        ((trimChars prev.data).map Char.toLower) = true := h2
    have e : addTokenChars token.data prev.data = prev.data := by
      unfold addTokenChars
      rw [if_neg h1l, if_pos h2l]
    show String.mk (addTokenChars token.data prev.data) = prev
    rw [e]
  · have h1l : ¬ ((trimChars prev.data).length = 0) := h1
    have h2l : charsContain (token.data.map Char.toLower)
        ((trimChars prev.data).map Char.toLower) = false := h2
    have e : addTokenChars token.data prev.data
        = trimChars prev.data ++ ',' :: ' ' :: token.data := by
      unfold addTokenChars
      rw [if_neg h1l, if_neg (by simp [h2l])]
    show String.mk (addTokenChars token.data prev.data)
        = String.mk ((trimChars prev.data ++ [',', ' ']) ++ token.data)
    rw [e]
    exact congrArg String.mk (by simp)

/-- Witness for C9: a whitespace-free preset token applied twice to a
concrete prompt gives the same result as applying it once. -/
theorem C9_witness :
    addPromptToken "Cyberpunk" (addPromptToken "Cyberpunk" "a cat")
      = addPromptToken "Cyberpunk" "a cat" :=
  ( C9_theorem "Cyberpunk" "a cat").1 (by decide)

/-- Claim C10 (confirmed): on every run of `handleSubmit` in which the edit
call actually happens (image loaded, non-empty prompt, not already loading),
the final state has `isLoading = false` in every outcome; whenever the call
throws or resolves without a truthy image string, `editedImage` ends `none`
and `error` carries a message prefixed `Generation failed: `; and
`editedImage` is set — to a data URL wrapping the returned payload — exactly
when an image was produced, with `error` then `none`. -/
theorem C10_theorem : ∀ (s : AppState) (o : EditCallOutcome),
    s.originalImage ≠ none → s.prompt ≠ "" → s.isLoading = false →
    ((handleSubmit s o).1.isLoading = false ∧
     (∀ msg, o = EditCallOutcome.thrownError msg →
        (handleSubmit s o).1.editedImage = none ∧
        (handleSubmit s o).1.error = some ("Generation failed: " ++ msg)) ∧
     (o = EditCallOutcome.thrownNonError →
        (handleSubmit s o).1.editedImage = none ∧
        (handleSubmit s o).1.error = some ("Generation failed: " ++ unknownAppErrMsg)) ∧
     (∀ g, o = EditCallOutcome.resolved g → (g = none ∨ g = some "") →
        (handleSubmit s o).1.editedImage = none ∧
        (handleSubmit s o).1.error = some ("Generation failed: " ++ noImageMsg)) ∧
     (∀ g, o = EditCallOutcome.resolved (some g) → g.isEmpty = false →
        (handleSubmit s o).1.editedImage = some ("data:image/png;base64," ++ g) ∧
        (handleSubmit s o).1.error = none)) := by
  intro s o h1 h2 h3
  have hno : s.originalImage.isNone = false := by
    cases ho : s.originalImage with
    | none => exact absurd ho h1
    | some v => rfl
  have hpe : s.prompt.isEmpty = false := by
    cases hq : s.prompt.isEmpty with
    | false => rfl
    | true => exact absurd ((String.isEmpty_iff _).mp hq) h2
  have hcn : ¬ ((s.originalImage.isNone || s.prompt.isEmpty || s.isLoading) = true) := by
    simp [hno, hpe, h3]
  have hres : handleSubmit s o = ({ submitTry s o with isLoading := false }, true) := by
    unfold handleSubmit
    rw [if_neg hcn]
  rw [hres]
  refine ⟨rfl, fun msg hmsg => ?_, fun hmsg => ?_, fun g hgo hg => ?_,
    fun g hgo hg => ?_⟩
  · subst hmsg
    exact ⟨rfl, rfl⟩
  · subst hmsg
    exact ⟨rfl, rfl⟩
  · subst hgo
    rcases hg with rfl | rfl
    · exact ⟨rfl, rfl⟩
    · exact ⟨rfl, rfl⟩
  · subst hgo
    have e : submitTry s (EditCallOutcome.resolved (some g))
        = if g.isEmpty then
            { submitStart s with error := some ("Generation failed: " ++ noImageMsg) }
          else
            { submitStart s with
                editedImage := some ("data:image/png;base64," ++ g) } := rfl
    rw [e, if_neg (by simp [hg])]
    exact ⟨rfl, rfl⟩

/-- Witness for C10: a concrete successful run sets the edited image to the
PNG data URL wrapping the returned payload. -/
theorem C10_witness :
    (handleSubmit
        ⟨some ⟨"aW1n", "image/png", "cat.png"⟩, none, "make it blue", false, none⟩
        (EditCallOutcome.resolved (some "QUJD"))).1.editedImage
      = some "data:image/png;base64,QUJD" :=
  (( C10_theorem
      ⟨some ⟨"aW1n", "image/png", "cat.png"⟩, none, "make it blue", false, none⟩
      (EditCallOutcome.resolved (some "QUJD")) (by simp) (by decide)
      rfl).2.2.2.2 "QUJD" rfl (by decide)).1

end StoneImage
